import Mathlib

/-!
Verification of the sales-analytics studio's aggregation, outlier and trend
logic, shallowly embedded from the Python sources
(`python/streamlit_app.py`, `python/analytics/insight_generator.py`,
`python/analytics/kpi_calculator.py`, `python/data_loader/csv_loader.py`,
`python/demo_mode.py`, `python/main.py`).

Monetary amounts and KPI values are embedded as exact rationals (`Rat`);
dates, customer ids, product ids and region ids are `Nat` (a nullable
region id is `Option Nat`).
-/

namespace Studio

/-- Transaction record, from the data model used by the loader and the
aggregations (`TRANSACTION_DATE, CUSTOMER_ID, PRODUCT_ID, QUANTITY,
UNIT_PRICE, TOTAL_AMOUNT, REGION_ID, DISCOUNT_PERCENTAGE`). -/
structure Transaction where
  transaction_date : Nat
  customer_id : Nat
  product_id : Nat
  quantity : Rat
  unit_price : Rat
  total_amount : Rat
  region_id : Option Nat
  discount_percentage : Rat
deriving DecidableEq, Repr

/-- Sum of the `TOTAL_AMOUNT` column over a transaction set
(`df["TOTAL_AMOUNT"].sum()` in `compute_kpis`). -/
def grandTotal (txs : List Transaction) : Rat :=
  (txs.map Transaction.total_amount).sum

/-- Sum of the values of all rows whose key equals `k` — the value of one
groupby bucket. -/
def sumForKey {K : Type} [DecidableEq K] (l : List (K × Rat)) (k : K) : Rat :=
  ((l.filter (fun p => decide (p.1 = k))).map Prod.snd).sum

/-- Embedding of `df.groupby(key)[value].sum()`: one `(key, sum)` row per
distinct key.  Pandas returns the buckets with keys sorted; the bucket
order is irrelevant to every property stated below, so buckets are kept
in `List.dedup` order here (a permutation of the pandas order). -/
def groupSum {K : Type} [DecidableEq K] (l : List (K × Rat)) : List (K × Rat) :=
  ((l.map Prod.fst).dedup).map (fun k => (k, sumForKey l k))

/-- Sum of the per-bucket values of an aggregate. -/
def bucketSum {K : Type} (l : List (K × Rat)) : Rat :=
  (l.map Prod.snd).sum

/-- Embedding of `revenue_by_region` (`streamlit_app.py`):
`df.groupby("REGION_ID", dropna=False)["TOTAL_AMOUNT"].sum()` — note
`dropna=False`, so a null region id forms its own bucket (`none`). -/
def revenue_by_region (txs : List Transaction) : List (Option Nat × Rat) :=
  groupSum (txs.map (fun t => (t.region_id, t.total_amount)))

/-- Daily revenue: `TOTAL_AMOUNT` grouped by transaction day, the per-day
aggregate used by the daily outlier detector and the demo KPI generator. -/
def revenue_by_day (txs : List Transaction) : List (Nat × Rat) :=
  groupSum (txs.map (fun t => (t.transaction_date, t.total_amount)))

/-- Embedding of the demo generator's revenue-by-region KPI
(`DemoDataGenerator.generate_kpi_results`):
`sales_df.groupby(["REGION_ID", date])["TOTAL_AMOUNT"].sum()` with the
pandas default `dropna=True`, which drops rows whose region id is null. -/
def demo_revenue_by_region_day (txs : List Transaction) : List ((Nat × Nat) × Rat) :=
  groupSum (txs.filterMap
    (fun t => t.region_id.map (fun r => ((r, t.transaction_date), t.total_amount))))

section PartitionLemma

variable {K : Type} [DecidableEq K]

omit [DecidableEq K] in
theorem sum_map_const_zero (keys : List K) :
    (keys.map (fun _ => (0 : Rat))).sum = 0 := by
  induction keys with
  | nil => simp
  | cons k t ih => simp [ih]

omit [DecidableEq K] in
theorem sum_map_add (keys : List K) (f g : K → Rat) :
    (keys.map (fun k => f k + g k)).sum = (keys.map f).sum + (keys.map g).sum := by
  induction keys with
  | nil => simp
  | cons k t ih => simp [ih]; ring

theorem sum_map_ite_of_not_mem {a : K} (v : Rat) {keys : List K} (h : a ∉ keys) :
    (keys.map (fun k => if a = k then v else 0)).sum = 0 := by
  induction keys with
  | nil => simp
  | cons k t ih =>
    have hak : a ≠ k := fun hc => h (hc ▸ List.mem_cons_self k t)
    have hat : a ∉ t := fun hc => h (List.mem_cons_of_mem k hc)
    simp [hak, ih hat]

theorem sum_map_ite_single {a : K} (v : Rat) {keys : List K}
    (hnd : keys.Nodup) (hmem : a ∈ keys) :
    (keys.map (fun k => if a = k then v else 0)).sum = v := by
  induction keys with
  | nil => simp at hmem
  | cons k t ih =>
    rcases List.mem_cons.mp hmem with h | h
    · subst h
      have hat : a ∉ t := (List.nodup_cons.mp hnd).1
      simp [sum_map_ite_of_not_mem v hat]
    · have hak : a ≠ k := by
        intro hc
        exact (List.nodup_cons.mp hnd).1 (hc ▸ h)
      simp [hak, ih (List.nodup_cons.mp hnd).2 h]

theorem sumForKey_nil (k : K) : sumForKey ([] : List (K × Rat)) k = 0 := by
  simp [sumForKey]

theorem sumForKey_cons (p : K × Rat) (t : List (K × Rat)) (k : K) :
    sumForKey (p :: t) k = (if p.1 = k then p.2 else 0) + sumForKey t k := by
  by_cases h : p.1 = k <;> simp [sumForKey, List.filter_cons, h]

/-- Partition lemma: summing the per-bucket sums over any duplicate-free
list of keys that covers every row's key recovers the total. -/
theorem sum_over_keys (l : List (K × Rat)) (keys : List K)
    (hnd : keys.Nodup) (hmem : ∀ p ∈ l, p.1 ∈ keys) :
    (keys.map (fun k => sumForKey l k)).sum = (l.map Prod.snd).sum := by
  induction l with
  | nil => simp [sumForKey_nil, sum_map_const_zero]
  | cons p t ih =>
    have hcongr : (keys.map (fun k => sumForKey (p :: t) k)) =
        (keys.map (fun k => (if p.1 = k then p.2 else 0) + sumForKey t k)) := by
      simp [sumForKey_cons]
    rw [hcongr, sum_map_add,
      sum_map_ite_single p.2 hnd (hmem p (List.mem_cons_self p t)),
      ih (fun q hq => hmem q (List.mem_cons_of_mem p hq))]
    simp

/-- Summing all buckets of a `groupSum` aggregate recovers the sum of all
row values: grouping partitions the rows and loses nothing. -/
theorem bucketSum_groupSum (l : List (K × Rat)) :
    bucketSum (groupSum l) = (l.map Prod.snd).sum := by
  unfold bucketSum groupSum
  rw [List.map_map]
  have : (Prod.snd ∘ fun k => (k, sumForKey l k)) = fun k => sumForKey l k := rfl
  rw [this]
  exact sum_over_keys l _ (List.nodup_dedup _)
    (fun p hp => List.mem_dedup.mpr (List.mem_map_of_mem Prod.fst hp))

end PartitionLemma

/-!
## Trend classifier (`InsightGenerator.detect_trends`)

The source fetches the `periods` most recent KPI rows, returns
"Insufficient data" if fewer arrive, sorts them ascending by date and
computes `trend = "increasing" if values[-1] > values[0] else "decreasing"`
and `change_percent = ((values[-1] - values[0]) / values[0]) * 100`.
The division is not guarded: when `values[0] == 0` the source evaluates a
division by zero (with numpy float values this produces an infinite or NaN
percentage inside an ordinary trend string, with plain Python numbers a
`ZeroDivisionError`).  The embedding makes that unguarded path an explicit
`divisionByZero` marker, since the exact quotient is undefined there.
-/

/-- Result of `detect_trends` over the fetched window. -/
inductive TrendResult where
  | insufficientData
  | classified (direction : String) (changePercent : Rat)
  | divisionByZero
  | noClearTrend
deriving DecidableEq, Repr

/-- Embedding of `InsightGenerator.detect_trends`, applied to the fetched
window of KPI values sorted ascending by date. -/
def detect_trends (window : List Rat) (periods : Nat) : TrendResult :=
  if window.length < periods then TrendResult.insufficientData
  else if 2 ≤ window.length then
    let first := window.headD 0
    let lastv := window.getLastD 0
    if first = 0 then TrendResult.divisionByZero
    else
      TrendResult.classified
        (if first < lastv then "increasing" else "decreasing")
        ((lastv - first) / first * 100)
  else TrendResult.noClearTrend

/-!
## Sorting machinery

`pandas.sort_values(..., ascending=False)` computes an ascending argsort
of the values and reverses it (`nargsort` ends in `indexer = indexer[::-1]`).
The embedding below mirrors that mechanism: a stable ascending sort of the
buckets by value (`List.insertionSort` from Mathlib is stable: an element
is inserted before the first element it is related to), then `reverse`.
For results of at most 16 rows numpy's default `quicksort` kind is a
stable insertion sort, so reversed-stable is the source's exact
deterministic behavior there; for larger results the introsort tie order
is unspecified, and nothing proved below depends on the model's tie order
beyond a permutation and the non-strict descending ordering.  Note the
consequence for ties: reversing a stable ascending sort puts rows of equal
value in reversed input order — for buckets arriving ascending by group
key, equal values come out descending by key, not ascending. -/

/-- Ascending-by-value comparison used for the argsort. -/
def ascBySnd (a b : Nat × Rat) : Prop := a.2 ≤ b.2

instance : DecidableRel ascBySnd := fun a b => inferInstanceAs (Decidable (a.2 ≤ b.2))

instance : IsTotal (Nat × Rat) ascBySnd := ⟨fun a b => le_total a.2 b.2⟩

instance : IsTrans (Nat × Rat) ascBySnd := ⟨fun _ _ _ hab hbc => le_trans hab hbc⟩

/-- Descending-by-value sort of `(key, value)` buckets, embedding
`sort_values(value, ascending=False)` on a grouped result as pandas
implements it: reversed stable ascending argsort. -/
def sortBySndDesc (l : List (Nat × Rat)) : List (Nat × Rat) :=
  (List.insertionSort ascBySnd l).reverse

/-- Ascending sort of group keys, matching the sorted index that pandas
`groupby` produces. -/
def sortKeysAsc (l : List Nat) : List Nat :=
  List.insertionSort (fun a b => a ≤ b) l

/-- Embedding of `top_customers`' grouping step
(`df.groupby("CUSTOMER_ID")["TOTAL_AMOUNT"].sum()`): one bucket per
distinct customer id, keys ascending as pandas `groupby` returns them. -/
def customer_revenue (txs : List Transaction) : List (Nat × Rat) :=
  let pairs := txs.map (fun t => (t.customer_id, t.total_amount))
  (sortKeysAsc ((pairs.map Prod.fst).dedup)).map (fun c => (c, sumForKey pairs c))

/-- Embedding of `top_customers` (`streamlit_app.py`): group by customer,
sum `TOTAL_AMOUNT`, sort descending by revenue (reversed stable ascending
argsort, see `sortBySndDesc`), keep the first `n` rows.  Note that the
demo variant (`DemoDataGenerator`'s `nlargest(10)`, tie rule
`keep="first"`) orders equal revenues the opposite way, by ascending
customer id. -/
def top_customers (txs : List Transaction) (n : Nat) : List (Nat × Rat) :=
  (sortBySndDesc (customer_revenue txs)).take n

/-- Strict order on buckets that C4 claims for the top-customers output:
revenue strictly descending, ties strictly ascending by customer id. -/
def revCustOrd (a b : Nat × Rat) : Prop :=
  b.2 < a.2 ∨ (a.2 = b.2 ∧ a.1 < b.1)

theorem sortBySndDesc_perm (l : List (Nat × Rat)) : (sortBySndDesc l).Perm l :=
  (List.reverse_perm _).trans (List.perm_insertionSort ascBySnd l)

theorem sortBySndDesc_sorted_desc (l : List (Nat × Rat)) :
    (sortBySndDesc l).Pairwise (fun a b => b.2 ≤ a.2) := by
  rw [sortBySndDesc, List.pairwise_reverse]
  exact List.sorted_insertionSort ascBySnd l

theorem sortKeysAsc_perm (l : List Nat) : (sortKeysAsc l).Perm l :=
  List.perm_insertionSort _ l

theorem sortKeysAsc_pairwise_lt (l : List Nat) (h : l.Nodup) :
    (sortKeysAsc l).Pairwise (fun a b => a < b) := by
  have hs : (sortKeysAsc l).Pairwise (fun a b : Nat => a ≤ b) :=
    List.sorted_insertionSort (fun a b => a ≤ b) l
  have hnd : (sortKeysAsc l).Pairwise (fun a b : Nat => a ≠ b) :=
    (List.Perm.nodup_iff (sortKeysAsc_perm l)).mpr h
  exact (hs.and hnd).imp (fun hab => lt_of_le_of_ne hab.1 hab.2)

theorem customer_revenue_pairwise (txs : List Transaction) :
    (customer_revenue txs).Pairwise (fun a b => a.1 < b.1) := by
  unfold customer_revenue
  rw [List.pairwise_map]
  exact sortKeysAsc_pairwise_lt _ (List.nodup_dedup _)

theorem customer_revenue_length (txs : List Transaction) :
    (customer_revenue txs).length = ((txs.map Transaction.customer_id).dedup).length := by
  unfold customer_revenue
  rw [List.length_map, (sortKeysAsc_perm _).length_eq, List.map_map]
  rfl

/-!
## Anomaly detectors

`InsightGenerator.detect_outliers` flags KPI rows whose value deviates
from the series mean by more than `mean * threshold_percent / 100`
(`value > mean + threshold` or `value < mean - threshold`).  The daily
variant in `streamlit_app.py` aggregates by day and flags
`|value - mean| / std(ddof=0) > threshold`.
-/

/-- Arithmetic mean of a list of values (`Series.mean()`). -/
def mean (vs : List Rat) : Rat := vs.sum / (vs.length : Rat)

/-- Population variance (`Series.std(ddof=0)` squared). -/
def popVar (vs : List Rat) : Rat :=
  ((vs.map (fun v => (v - mean vs) ^ 2)).sum) / (vs.length : Rat)

/-- Embedding of `InsightGenerator.detect_outliers` applied to the fetched
`(KPI_DATE, KPI_VALUE)` rows: empty input returns no outliers, otherwise
rows outside `mean ± mean * threshold_percent / 100` are flagged. -/
def ig_detect_outliers (rows : List (Nat × Rat)) (threshold_percent : Rat) :
    List (Nat × Rat) :=
  if rows.isEmpty then []
  else
    let m := mean (rows.map Prod.snd)
    let thr := m * (threshold_percent / 100)
    rows.filter (fun p => decide (m + thr < p.2) || decide (p.2 < m - thr))

/-- The daily variant's outlier test `|value - mean| / std(ddof=0) > threshold`,
expressed without a square root over the rationals: for `std > 0` and
`threshold ≥ 0` the test is equivalent to
`(value - mean)^2 > threshold^2 * variance` (both sides of the original
comparison are nonnegative, squaring is strictly monotone there).  When the
variance is zero pandas produces NaN z-scores and `NaN > threshold` is
false, so no row is flagged; when `threshold < 0` and `std > 0` the
absolute z-score always exceeds it. -/
def isOutlierZ (threshold m v val : Rat) : Bool :=
  if v = 0 then false
  else if threshold < 0 then true
  else decide ((val - m) ^ 2 > threshold ^ 2 * v)

/-- Embedding of the scoring core of `detect_outliers` (`streamlit_app.py`):
sum values per day, require at least 3 daily points, flag by z-score and
return the flagged buckets sorted descending by value. -/
def daily_outliers (pairs : List (Nat × Rat)) (threshold : Rat) :
    List (Nat × Rat) :=
  let agg := groupSum pairs
  if agg.length < 3 then []
  else
    let m := mean (agg.map Prod.snd)
    let v := popVar (agg.map Prod.snd)
    sortBySndDesc (agg.filter (fun p => isOutlierZ threshold m v p.2))

/-!
## Public daily outlier interface (`detect_outliers` in `streamlit_app.py`)

The public function takes a raw dataframe and optional column names.  It
returns an empty frame when either column name is falsy (`None` or the
empty string) or not among the frame's columns, and its whole body is
wrapped in `try/except Exception: return pd.DataFrame()`, so any internal
failure is also mapped to an empty result.
-/

/-- A dataframe cell: a number, a non-numeric text value, or a missing
value (NaN). -/
inductive Cell where
  | num (q : Rat)
  | text (s : String)
  | null
deriving DecidableEq, Repr

/-- Numeric content of a cell (only used on numeric cells). -/
def Cell.valOf : Cell → Rat
  | Cell.num q => q
  | _ => 0

/-- Whether a cell holds a non-numeric text value. -/
def Cell.isText : Cell → Bool
  | Cell.text _ => true
  | _ => false

/-- A raw dataframe: named columns of cells. -/
structure Frame where
  cols : List (String × List Cell)
deriving DecidableEq, Repr

/-- Column names of a frame (`df.columns`). -/
def Frame.colNames (f : Frame) : List String := f.cols.map Prod.fst

/-- Look a column up by name. -/
def Frame.getCol (f : Frame) (name : String) : Option (List Cell) :=
  (f.cols.find? (fun c => decide (c.1 = name))).map Prod.snd

/-- Embedding of `pd.to_datetime(col, errors="coerce")`: a nonnegative
integral number is taken as a day stamp, anything else (text the model
does not parse, or a missing value) coerces to `NaT` (`none`). -/
def parseDate : Cell → Option Nat
  | Cell.num q => if 0 ≤ q.num ∧ q.den = 1 then some q.num.toNat else none
  | _ => none

/-- The body of `detect_outliers` inside the `try` block: select the two
columns, coerce dates, drop rows whose date is `NaT` or whose value is
missing, then aggregate and score.  A surviving non-numeric value makes
the pandas aggregation/arithmetic raise, modelled as `Except.error`;
selecting an absent column raises a `KeyError` (unreachable behind the
public guard). -/
def detect_outliers_body (df : Frame) (dateCol valueCol : String)
    (threshold : Rat) : Except String (List (Nat × Rat)) :=
  match df.getCol dateCol, df.getCol valueCol with
  | some dcol, some vcol =>
    let kept := (dcol.zip vcol).filterMap (fun p =>
      match parseDate p.1 with
      | some d => match p.2 with
        | Cell.null => none
        | c => some (d, c)
      | none => none)
    if kept.any (fun p => p.2.isText) then Except.error "TypeError"
    else Except.ok (daily_outliers (kept.map (fun p => (p.1, p.2.valOf))) threshold)
  | _, _ => Except.error "KeyError"

/-- Embedding of the public `detect_outliers(df, date_col, value_col,
threshold=2.5)`: falsy or unknown column names return an empty frame, and
the `except Exception` clause maps any internal error to an empty frame. -/
def detect_outliers_app (df : Frame) (dateCol valueCol : Option String)
    (threshold : Rat) : List (Nat × Rat) :=
  match dateCol, valueCol with
  | some d, some v =>
    if d = "" ∨ v = "" then []
    else if d ∉ df.colNames ∨ v ∉ df.colNames then []
    else
      match detect_outliers_body df d v threshold with
      | Except.ok r => r
      | Except.error _ => []
  | _, _ => []

/-!
## CSV loader (`CSVLoader.load_sales_data`)

The loader reads the file, validates the fixed required-column set and
raises `ValueError` before any database work when a column is missing;
otherwise it fills missing cells with 0 (`df.fillna(0)`), batch-inserts
every row in one `executemany` + commit, and only then archives the file.
The record store and archive directory are modelled as explicit state, so
"no partial insert" is "the state is unchanged".
-/

/-- State touched by the loader: rows in `SALES_TRANSACTIONS` and files
moved to the archive directory. -/
structure StoreState where
  rows : Nat
  archivedFiles : Nat
deriving DecidableEq, Repr

/-- Errors `load_sales_data` raises before inserting. -/
inductive LoadError where
  | fileNotFound
  | missingColumns (missing : List String)
deriving DecidableEq, Repr

/-- Required columns checked by the loader. -/
def requiredColumns : List String :=
  ["transaction_date", "customer_id", "product_id",
   "quantity", "unit_price", "total_amount"]

/-- Embedding of `CSVLoader.load_sales_data`: `fileExists` models the
existence check, `cols` the columns of the parsed CSV, `n` its row count.
Returns the store state after the call and either the raised error or the
number of records loaded. -/
def load_sales_data (st : StoreState) (fileExists : Bool) (cols : List String)
    (n : Nat) : StoreState × Except LoadError Nat :=
  if fileExists = false then (st, Except.error LoadError.fileNotFound)
  else
    let missing := requiredColumns.filter (fun c => decide (c ∉ cols))
    if missing.isEmpty then
      ({ rows := st.rows + n, archivedFiles := st.archivedFiles + 1 }, Except.ok n)
    else (st, Except.error (LoadError.missingColumns missing))

/-- Truncation toward zero, the semantics of Python's `int()` on a float. -/
def pyInt (q : Rat) : Int := Int.tdiv q.num q.den

/-- Embedding of the loader's region value, line
`int(row.get("region_id", 0)) if pd.notna(row.get("region_id")) else None`:
when the `region_id` column is present, `df.fillna(0)` has already
replaced a blank cell (`none`) by 0 and `pd.notna` is therefore always
true, so the integer value is inserted; when the column is absent,
`row.get` yields no value, `pd.notna` fails and NULL is inserted. -/
def load_region_value (hasRegionCol : Bool) (cell : Option Rat) : Option Int :=
  if hasRegionCol then some (pyInt (cell.getD 0))
  else none

/-!
## KPI aggregation transactions and the pipeline (`KPICalculator`, `main.py`)

`calculate_all_kpis` runs the five KPI families in a fixed order, calling
the stored procedure for each and committing immediately afterwards.  The
whole sequence sits in one `try`: the first failing family's uncommitted
writes are rolled back in the `except` clause, the exception is re-raised,
and no later family is attempted.  `main.py` wraps every stage in a
`try/except` that exits with a nonzero code, the `Failed` terminal state.
-/

/-- The five KPI families, in the order `calculate_all_kpis` runs them. -/
inductive Family where
  | revenueByRegion
  | monthlyRevenueTrend
  | topCustomers
  | productPerformance
  | avgTransactionValue
deriving DecidableEq, Repr

/-- Execution order of the stored-procedure calls in `calculate_all_kpis`. -/
def kpiFamilyOrder : List Family :=
  [Family.revenueByRegion, Family.monthlyRevenueTrend, Family.topCustomers,
   Family.productPerformance, Family.avgTransactionValue]

/-- Run the families in order: each successful family's writes are
committed (appended to `committed`) before the next starts; the first
failing family's uncommitted writes are rolled back (they never reach
`committed`), the rest are not attempted, and `false` records the
re-raised exception. -/
def runFamilies (fails : Family → Bool) :
    List Family → List Family → List Family × Bool
  | [], committed => (committed, true)
  | f :: rest, committed =>
    if fails f then (committed, false)
    else runFamilies fails rest (committed ++ [f])

/-- Embedding of `KPICalculator.calculate_all_kpis`: returns the committed
families and whether the call returned normally. -/
def calculate_all_kpis (fails : Family → Bool) : List Family × Bool :=
  runFamilies fails kpiFamilyOrder []

/-- Terminal pipeline states of a run of `main.py`. -/
inductive PipelineState where
  | done
  | failed
deriving DecidableEq, Repr

/-- Embedding of the aggregation stage of the pipeline: an exception that
escapes `calculate_all_kpis` propagates to `main`'s handler, which ends
the run in the `Failed` state (`sys.exit(1)`); the committed KPI rows
remain durable either way. -/
def pipelineRun (fails : Family → Bool) : PipelineState × List Family :=
  let r := calculate_all_kpis fails
  ((if r.2 then PipelineState.done else PipelineState.failed), r.1)

/-!
## Claim theorems
-/

theorem mem_groupSum_of_mem {K : Type} [DecidableEq K] {l : List (K × Rat)} {p : K × Rat}
    (hp : p ∈ l) : (p.1, sumForKey l p.1) ∈ groupSum l := by
  unfold groupSum
  exact List.mem_map_of_mem _ (List.mem_dedup.mpr (List.mem_map_of_mem Prod.fst hp))

/-- A transaction with a null region id, worth 5. -/
def txNullRegion : Transaction := ⟨1, 1, 101, 1, 5, 5, none, 0⟩

/-- A transaction in region 1, worth 7. -/
def txRegion1 : Transaction := ⟨2, 2, 102, 1, 7, 7, some 1, 0⟩

/-- C1 (counterexample): the claim couples "region buckets sum to the grand
total" with "null-region transactions are excluded from region grouping";
on the code the exclusion half is false and under exclusion the partition
half would fail.  Concretely, for the two transactions
`[txNullRegion, txRegion1]` (amounts 5 and 7): `revenue_by_region`
(`dropna=False`) contains a bucket keyed by the null region — the
null-region transaction is not excluded — and the demo generator's
region grouping, which does drop null regions (`dropna=True` default),
sums to 7, not to the grand total 12. -/
theorem claim_C1_counterexample :
    ((none : Option Nat), (5 : Rat)) ∈ revenue_by_region [txNullRegion, txRegion1] ∧
    bucketSum (demo_revenue_by_region_day [txNullRegion, txRegion1]) ≠
      grandTotal [txNullRegion, txRegion1] := by
  constructor
  · have hmap : [txNullRegion, txRegion1].map (fun t => (t.region_id, t.total_amount)) =
        [((none : Option Nat), (5 : Rat)), (some 1, 7)] := rfl
    rw [revenue_by_region, hmap]
    have h := mem_groupSum_of_mem (l := [((none : Option Nat), (5 : Rat)), (some 1, 7)])
      (p := ((none : Option Nat), (5 : Rat))) (by simp)
    have hs : sumForKey [((none : Option Nat), (5 : Rat)), (some 1, 7)]
        (none : Option Nat) = 5 := by
      simp [sumForKey, List.filter_cons]
    simpa [hs] using h
  · have hmap : [txNullRegion, txRegion1].filterMap
        (fun t => t.region_id.map (fun r => ((r, t.transaction_date), t.total_amount))) =
        [(((1 : Nat), (2 : Nat)), (7 : Rat))] := rfl
    rw [demo_revenue_by_region_day, hmap, bucketSum_groupSum]
    norm_num [grandTotal, txNullRegion, txRegion1]

/-- C1 (amended): for every transaction set, the region buckets of
`revenue_by_region` (`dropna=False`, so a null region id forms its own
bucket rather than being excluded) sum to the grand total of
`total_amount`, and the per-day revenue buckets sum to the same grand
total: the aggregation partitions the input and loses nothing. -/
theorem claim_C1_partition (txs : List Transaction) :
    bucketSum (revenue_by_region txs) = grandTotal txs ∧
    bucketSum (revenue_by_day txs) = grandTotal txs := by
  constructor
  · rw [revenue_by_region, bucketSum_groupSum, List.map_map]
    rfl
  · rw [revenue_by_day, bucketSum_groupSum, List.map_map]
    rfl

/-- C2: on a fetched window whose earliest value is 0 (here `[0, 50]` with
`periods = 2`), `detect_trends` reaches the unguarded division
`((values[-1] - values[0]) / values[0]) * 100` instead of reporting any
guarded IndeterminateTrend-style result variant: no such variant exists
anywhere in the source, which simply divides (numpy floats turn this into
an infinite/NaN percentage inside an ordinary trend string; plain Python
numbers would raise `ZeroDivisionError`). -/
theorem claim_C2_division_unguarded :
    detect_trends [0, 50] 2 = TrendResult.divisionByZero := by
  norm_num [detect_trends]

/-- C3 (counterexample): on the equal-values series `[100, 100]` the
classifier returns direction "decreasing" (with 0 percent change), not
"increasing" as claimed: `values[-1] > values[0]` is false for equal
values, so the conditional expression falls to its else-branch
`"decreasing"`. -/
theorem claim_C3_counterexample :
    detect_trends [100, 100] 2 = TrendResult.classified "decreasing" 0 ∧
    TrendResult.classified "decreasing" 0 ≠ TrendResult.classified "increasing" 0 := by
  constructor
  · norm_num [detect_trends]
  · simp

/-- C3 (amended): the classifier on `[100, 150]` over 2 periods returns
("increasing", 50.0); on `[100, 100]` it returns ("decreasing", 0.0) —
the falsy comparison `values[-1] > values[0]` defaults the equal case to
the else-branch "decreasing". -/
theorem claim_C3_trend_values :
    detect_trends [100, 150] 2 = TrendResult.classified "increasing" 50 ∧
    detect_trends [100, 100] 2 = TrendResult.classified "decreasing" 0 := by
  constructor <;> norm_num [detect_trends]

/-- A transaction by customer 1, worth 10. -/
def txCust1 : Transaction := ⟨1, 1, 101, 1, 10, 10, some 1, 0⟩

/-- A transaction by customer 2, also worth 10. -/
def txCust2 : Transaction := ⟨1, 2, 102, 1, 10, 10, some 2, 0⟩

/-- C4 (counterexample): two customers with equal summed revenue 10.
The grouped buckets leave `groupby` ascending by customer id,
`[(1, 10), (2, 10)]`; the descending value sort reverses the stable
ascending argsort (for a 2-row frame numpy's `quicksort` kind is a stable
insertion sort, so this is the source's deterministic behavior), giving
`[(2, 10), (1, 10)]`: equal revenues appear in descending customer-id
order, and the claimed strict order (ties ascending by customer id) fails
on the result. -/
theorem claim_C4_counterexample :
    top_customers [txCust1, txCust2] 2 = [(2, 10), (1, 10)] ∧
    ¬(top_customers [txCust1, txCust2] 2).Pairwise revCustOrd := by
  have hpairs : [txCust1, txCust2].map (fun t => (t.customer_id, t.total_amount)) =
      [((1 : Nat), (10 : Rat)), (2, 10)] := rfl
  have hkeys : sortKeysAsc (([((1 : Nat), (10 : Rat)), (2, 10)].map Prod.fst).dedup) =
      [1, 2] := rfl
  have hsum1 : sumForKey [((1 : Nat), (10 : Rat)), (2, 10)] 1 = 10 := by
    norm_num [sumForKey, List.filter_cons]
  have hsum2 : sumForKey [((1 : Nat), (10 : Rat)), (2, 10)] 2 = 10 := by
    norm_num [sumForKey, List.filter_cons]
  have hcr : customer_revenue [txCust1, txCust2] = [(1, 10), (2, 10)] := by
    simp only [customer_revenue]
    rw [hpairs, hkeys]
    simp [hsum1, hsum2]
  have hsort : sortBySndDesc [((1 : Nat), (10 : Rat)), (2, 10)] = [(2, 10), (1, 10)] := by
    norm_num [sortBySndDesc, List.insertionSort, List.orderedInsert, ascBySnd]
  have hres : top_customers [txCust1, txCust2] 2 = [(2, 10), (1, 10)] := by
    rw [top_customers, hcr, hsort]
    rfl
  refine ⟨hres, ?_⟩
  rw [hres]
  intro hpw
  rcases List.pairwise_cons.mp hpw with ⟨hhead, _⟩
  rcases hhead (1, 10) (List.mem_cons_self _ _) with hlt | ⟨_, hid⟩
  · exact absurd hlt (by norm_num)
  · exact absurd hid (by norm_num)

/-- C4 (amended): for every transaction set and every `n`, the
top-`n`-customers result has exactly `min n (number of distinct customer
ids)` rows and is sorted (non-strictly) descending by summed revenue.
The claimed ascending-customer-id tie rule does not hold for this
implementation — equal revenues come out in descending customer-id order
(see the counterexample); only the demo variant's `nlargest(keep="first")`
yields ascending ties for its fixed `N = 10`. -/
theorem claim_C4_amended (txs : List Transaction) (n : Nat) :
    (top_customers txs n).length =
      min n ((txs.map Transaction.customer_id).dedup).length ∧
    (top_customers txs n).Pairwise (fun a b => b.2 ≤ a.2) := by
  constructor
  · rw [top_customers, List.length_take, (sortBySndDesc_perm _).length_eq,
      customer_revenue_length]
  · exact List.Pairwise.sublist (List.take_sublist n _)
      (sortBySndDesc_sorted_desc (customer_revenue txs))

theorem sum_of_constant {vs : List Rat} {c : Rat} (h : ∀ v ∈ vs, v = c) :
    vs.sum = (vs.length : Rat) * c := by
  induction vs with
  | nil => simp
  | cons v t ih =>
    have hv : v = c := h v (List.mem_cons_self v t)
    have ht := ih (fun w hw => h w (List.mem_cons_of_mem v hw))
    rw [List.sum_cons, hv, ht, List.length_cons]
    push_cast
    ring

theorem mean_of_constant {vs : List Rat} {c : Rat} (hne : vs ≠ [])
    (h : ∀ v ∈ vs, v = c) : mean vs = c := by
  have hlen : (vs.length : Rat) ≠ 0 := by
    exact_mod_cast fun hz => hne (List.length_eq_zero.mp hz)
  rw [mean, sum_of_constant h]
  exact mul_div_cancel_left₀ c hlen

/-- C5 (counterexample): on the constant series of value −100 (three
points) with threshold percent 20, `detect_outliers` flags every point:
the band half-width `mean * threshold_percent / 100 = −20` is negative,
so `value > mean + threshold` (−100 > −120) holds at every point.  The
claimed empty outlier set fails for this constant series and positive
threshold. -/
theorem claim_C5_counterexample :
    ig_detect_outliers [(1, -100), (2, -100), (3, -100)] 20 =
      [(1, -100), (2, -100), (3, -100)] ∧
    ig_detect_outliers [(1, -100), (2, -100), (3, -100)] 20 ≠ [] := by
  have h : ig_detect_outliers [(1, -100), (2, -100), (3, -100)] 20 =
      [(1, -100), (2, -100), (3, -100)] := by
    norm_num [ig_detect_outliers, mean, List.filter]
  exact ⟨h, by rw [h]; simp⟩

/-- C5 (amended): for every constant KPI series with a nonnegative value
and every strictly positive threshold percent, the anomaly detector
returns an empty outlier set (for negative constant values the band
half-width is negative and every point is flagged instead). -/
theorem claim_C5_constant_series (rows : List (Nat × Rat)) (c p : Rat)
    (hall : ∀ x ∈ rows, x.2 = c) (hc : 0 ≤ c) (hp : 0 < p) :
    ig_detect_outliers rows p = [] := by
  rw [ig_detect_outliers]
  by_cases hrows : rows.isEmpty
  · simp [hrows]
  · have hne : rows ≠ [] := by simpa [List.isEmpty_iff] using hrows
    have hmap : ∀ v ∈ rows.map Prod.snd, v = c := by
      intro v hv
      rcases List.mem_map.mp hv with ⟨x, hx, rfl⟩
      exact hall x hx
    have hmean : mean (rows.map Prod.snd) = c :=
      mean_of_constant (by simpa using hne) hmap
    have hband : 0 ≤ c * (p / 100) :=
      mul_nonneg hc (div_nonneg hp.le (by norm_num))
    simp only [hrows, if_false, Bool.false_eq_true]
    rw [List.filter_eq_nil_iff]
    intro a ha
    have ha2 : a.2 = c := hall a ha
    simp only [hmean, ha2, Bool.or_eq_true, decide_eq_true_eq]
    push_neg
    constructor <;> linarith

/-- C5 (witness): the amended theorem applied to the constant series of
value 5 over two days with threshold percent 20. -/
theorem claim_C5_witness : ig_detect_outliers [(1, 5), (2, 5)] 20 = [] :=
  claim_C5_constant_series [(1, 5), (2, 5)] 5 20 (by norm_num) (by norm_num)
    (by norm_num)

/-- C6: the daily-aggregate outlier variant returns an empty result when
the aggregated series has fewer than 3 points, and otherwise returns
exactly (as a permutation, since flagged rows come back sorted descending
by value) the aggregated points flagged by the population z-score test
`isOutlierZ` — the source's `|value − mean| / std(ddof=0) > threshold`
expressed without a square root (see `isOutlierZ`). -/
theorem claim_C6_daily_outliers (pairs : List (Nat × Rat)) (threshold : Rat) :
    ((groupSum pairs).length < 3 → daily_outliers pairs threshold = []) ∧
    (3 ≤ (groupSum pairs).length →
      (daily_outliers pairs threshold).Perm
        ((groupSum pairs).filter (fun p => isOutlierZ threshold
          (mean ((groupSum pairs).map Prod.snd))
          (popVar ((groupSum pairs).map Prod.snd)) p.2))) := by
  constructor
  · intro h
    rw [daily_outliers]
    simp [h]
  · intro h
    rw [daily_outliers]
    simp only [Nat.not_lt.mpr h, if_false]
    exact sortBySndDesc_perm _

/-- C6 (witness): on the empty input the aggregate has 0 < 3 points and
the detector returns the empty result. -/
theorem claim_C6_witness : daily_outliers [] (5 / 2) = [] :=
  (claim_C6_daily_outliers [] (5 / 2)).1 (by norm_num [groupSum])

/-- C7: loading a file that misses a required column (any `c` in the
required set absent from the file's columns) fails with the schema error
listing the missing columns, and leaves the store state unchanged: zero
records inserted, nothing archived. -/
theorem claim_C7_loader_schema_error (st : StoreState) (cols : List String)
    (n : Nat) (c : String) (hc : c ∈ requiredColumns) (hmiss : c ∉ cols) :
    load_sales_data st true cols n =
      (st, Except.error (LoadError.missingColumns
        (requiredColumns.filter (fun c => decide (c ∉ cols))))) := by
  have hcm : c ∈ requiredColumns.filter (fun c => decide (c ∉ cols)) :=
    List.mem_filter.mpr ⟨hc, by simpa using hmiss⟩
  have hne : ¬(requiredColumns.filter (fun c => decide (c ∉ cols))).isEmpty = true := by
    simp only [List.isEmpty_iff]
    exact List.ne_nil_of_mem hcm
  rw [load_sales_data]
  simp only [hne]
  simp [hne]

/-- C7 (witness): a file with every required column except `unit_price`
is rejected with a schema error naming `unit_price`, and the initial
empty store state is returned untouched. -/
theorem claim_C7_witness :
    load_sales_data ⟨0, 0⟩ true
      ["transaction_date", "customer_id", "product_id", "quantity", "total_amount"] 3 =
      (⟨0, 0⟩, Except.error (LoadError.missingColumns ["unit_price"])) := by
  have h := claim_C7_loader_schema_error ⟨0, 0⟩
    ["transaction_date", "customer_id", "product_id", "quantity", "total_amount"]
    3 "unit_price" (by decide) (by decide)
  simpa [requiredColumns] using h

theorem runFamilies_first_failure (fails : Family → Bool) (post : List Family)
    (f : Family) (hf : fails f = true) :
    ∀ (pre : List Family) (acc : List Family), (∀ g ∈ pre, fails g = false) →
      runFamilies fails (pre ++ f :: post) acc = (acc ++ pre, false) := by
  intro pre
  induction pre with
  | nil =>
    intro acc _
    simp [runFamilies, hf]
  | cons g t ih =>
    intro acc hpre
    have hg : fails g = false := hpre g (List.mem_cons_self g t)
    rw [List.cons_append, runFamilies]
    simp only [hg, Bool.false_eq_true, if_false]
    rw [ih (acc ++ [g]) (fun x hx => hpre x (List.mem_cons_of_mem g hx))]
    simp

/-- C8: when the KPI families run in their fixed order and the first
failure happens at family `f` (every family before `f` succeeds, `f`
fails), the committed set is exactly the families before `f` — their
per-family commits are durable, `f`'s uncommitted writes are rolled back
and never reach the committed set, the families after `f` are not
attempted — and the exception propagates so the pipeline run ends in the
`Failed` state. -/
theorem claim_C8_family_transactions (fails : Family → Bool)
    (pre post : List Family) (f : Family)
    (horder : kpiFamilyOrder = pre ++ f :: post)
    (hpre : ∀ g ∈ pre, fails g = false) (hf : fails f = true) :
    pipelineRun fails = (PipelineState.failed, pre) := by
  rw [pipelineRun, calculate_all_kpis, horder,
    runFamilies_first_failure fails post f hf pre [] hpre]
  simp

/-- C8 (witness): a failure in the third family (top customers) leaves
exactly the first two families committed and the pipeline `Failed`. -/
theorem claim_C8_witness :
    pipelineRun (fun g => decide (g = Family.topCustomers)) =
      (PipelineState.failed, [Family.revenueByRegion, Family.monthlyRevenueTrend]) :=
  claim_C8_family_transactions (fun g => decide (g = Family.topCustomers))
    [Family.revenueByRegion, Family.monthlyRevenueTrend]
    [Family.productPerformance, Family.avgTransactionValue]
    Family.topCustomers rfl (by decide) (by decide)

/-- A transaction whose region id is the fill value 0. -/
def txRegion0 : Transaction := ⟨3, 3, 103, 1, 2, 2, some 0, 0⟩

/-- C9: when the `region_id` column is present the loader never inserts a
NULL region id — a blank/NaN cell has been replaced by 0 by `fillna(0)`
before the batch insert, so it is inserted as 0 — and a NULL region id is
inserted exactly when the column is absent from the file.  Consequently a
transaction whose region was blank carries region id 0 and appears in the
region grouping (under the `some 0` bucket), not excluded from it. -/
theorem claim_C9_region_fill (cell : Option Rat) (txs : List Transaction)
    (t : Transaction) (ht : t ∈ txs) (hr : t.region_id = some 0) :
    load_region_value true cell ≠ none ∧
    load_region_value true none = some 0 ∧
    load_region_value false cell = none ∧
    (some 0) ∈ (revenue_by_region txs).map Prod.fst := by
  refine ⟨?_, ?_, ?_, ?_⟩
  · simp [load_region_value]
  · norm_num [load_region_value, pyInt]
  · simp [load_region_value]
  · have h := mem_groupSum_of_mem
      (l := txs.map (fun t => (t.region_id, t.total_amount)))
      (p := (t.region_id, t.total_amount)) (List.mem_map_of_mem _ ht)
    rw [revenue_by_region]
    have hfst := List.mem_map_of_mem Prod.fst h
    simpa [hr] using hfst

/-- C9 (witness): the theorem at a concrete cell value 3 and the
single-transaction set whose region id is the fill value 0. -/
theorem claim_C9_witness :
    load_region_value true (some 3) ≠ none ∧
    load_region_value true none = some 0 ∧
    load_region_value false (some 3) = none ∧
    (some 0) ∈ (revenue_by_region [txRegion0]).map Prod.fst :=
  claim_C9_region_fill (some 3) [txRegion0] txRegion0 (by simp) rfl

/-- C10: the public daily outlier detector is total: its codomain is a
plain result list, falsy column selections (`None` or the empty string)
return the empty result, column names not present in the frame return the
empty result, and any error raised inside the `try` body is caught and
mapped to the same empty result, indistinguishable from "no outliers". -/
theorem claim_C10_total_interface (df : Frame) (dc vc : Option String)
    (threshold : Rat) :
    ((dc = none ∨ vc = none ∨ dc = some "" ∨ vc = some "") →
      detect_outliers_app df dc vc threshold = []) ∧
    (∀ d v, dc = some d → vc = some v →
      (d ∉ df.colNames ∨ v ∉ df.colNames) →
      detect_outliers_app df dc vc threshold = []) ∧
    (∀ d v e, dc = some d → vc = some v →
      detect_outliers_body df d v threshold = Except.error e →
      detect_outliers_app df dc vc threshold = []) := by
  refine ⟨?_, ?_, ?_⟩
  · rintro (rfl | rfl | rfl | rfl)
    · rfl
    · cases dc <;> rfl
    · cases vc with
      | none => rfl
      | some v => simp [detect_outliers_app]
    · cases dc with
      | none => rfl
      | some d => simp [detect_outliers_app]
  · rintro d v rfl rfl hnot
    rw [detect_outliers_app]
    by_cases h1 : d = "" ∨ v = ""
    · simp [h1]
    · simp [h1, hnot]
  · rintro d v e rfl rfl hbody
    rw [detect_outliers_app]
    by_cases h1 : d = "" ∨ v = ""
    · simp [h1]
    · by_cases h2 : d ∉ df.colNames ∨ v ∉ df.colNames
      · simp [h1, h2]
      · simp [h1, h2, hbody]

/-- C10 (witness): on a frame with no columns at all, selecting columns
"D" and "V" yields the empty result through the unknown-column guard. -/
theorem claim_C10_witness :
    detect_outliers_app ⟨[]⟩ (some "D") (some "V") (5 / 2) = [] :=
  (claim_C10_total_interface ⟨[]⟩ (some "D") (some "V") (5 / 2)).2.1 "D" "V"
    rfl rfl (Or.inl (by simp [Frame.colNames]))

end Studio
